import Mathlib

/-!
Verification of the Smart Desktop Fatigue Monitoring and Alert System.

This file gives a shallow embedding, in Lean 4, of the state machines of the
analysis and alert modules of the repository:

  - src/src/analysis/fatigue_analyzer.py   (FatigueAnalyzer)
  - src/src/analysis/distance_monitor.py   (DistanceMonitor)
  - src/src/analysis/posture_monitor.py    (PostureMonitor)
  - src/src/alert/alert_manager.py         (AlertManager)

Python floats are modelled as rationals (timestamps, thresholds, PERCLOS
values) or as reals where square roots occur (Euclidean distances in the EAR
computation).  Collections are modelled as lists: a collections.deque with a
maxlen bound becomes a list together with an explicit push-and-trim operation.
Stateful methods become pure state-transition functions taking the relevant
per-frame inputs (the derived boolean is_closed, the frame timestamp, the
outcome of the external pose solver) and the previous state, and returning the
next state.
-/

/-- Push one element onto a bounded FIFO, modelling append on a Python
collections.deque created with a maxlen bound: the element is appended at the
right and, if the capacity is exceeded, elements are discarded from the left. -/
def dequePush (cap : ℕ) (h : List Bool) (b : Bool) : List Bool :=
  let h2 := h ++ [b]
  if h2.length ≤ cap then h2 else h2.drop (h2.length - cap)

/-- Configuration parameters of FatigueAnalyzer.__init__ (thresholds; the
PERCLOS window is in seconds, the history capacity being perclos_window * 30
at an assumed 30 fps, exactly as in the source). -/
structure FatigueParams where
  ear_threshold : ℚ
  perclos_threshold : ℚ
  perclos_window : ℕ
  blink_min : ℕ
  blink_max : ℕ
  closed_eye_duration : ℚ
deriving Repr, DecidableEq

/-- Default constructor arguments of FatigueAnalyzer.__init__. -/
def defaultFatigueParams : FatigueParams :=
  { ear_threshold := 1/4
    perclos_threshold := 3/20
    perclos_window := 60
    blink_min := 10
    blink_max := 30
    closed_eye_duration := 2 }

/-- Mutable state of a FatigueAnalyzer instance (the fields assigned in
__init__ and updated by update; the three EAR fields are omitted because they
are pure per-frame outputs that feed only into the derived boolean
is_closed = avg_ear < ear_threshold, which we take as the frame input). -/
structure FatigueState where
  blink_counter : ℕ
  is_blinking : Bool
  last_blink_time : ℚ
  blinks_per_minute : ℕ
  eye_state_history : List Bool
  perclos_value : ℚ
  eye_closed_start : Option ℚ
  eye_closed_duration : ℚ
  is_drowsy : Bool
  fatigue_level : ℕ
deriving Repr, DecidableEq

/-- Initial FatigueAnalyzer state; t0 is the construction time recorded into
last_blink_time by __init__. -/
def initFatigueState (t0 : ℚ) : FatigueState :=
  { blink_counter := 0
    is_blinking := false
    last_blink_time := t0
    blinks_per_minute := 0
    eye_state_history := []
    perclos_value := 0
    eye_closed_start := none
    eye_closed_duration := 0
    is_drowsy := false
    fatigue_level := 0 }

namespace FatigueAnalyzer

/-- Embedding of FatigueAnalyzer._update_blink_detection: a closed frame while
not already blinking is a blink onset (counter incremented, last_blink_time
set to the frame timestamp); an open frame while blinking ends the blink;
afterwards, if strictly more than 60 seconds have passed since last_blink_time,
the counter is published as blinks_per_minute, the counter is reset to 0 and
last_blink_time is set to the frame timestamp. -/
def update_blink_detection (is_closed : Bool) (timestamp : ℚ) (s : FatigueState) :
    FatigueState :=
  let s1 :=
    if is_closed && !s.is_blinking then
      { s with is_blinking := true
               blink_counter := s.blink_counter + 1
               last_blink_time := timestamp }
    else if !is_closed && s.is_blinking then
      { s with is_blinking := false }
    else s
  if timestamp - s1.last_blink_time > 60 then
    { s1 with blinks_per_minute := s1.blink_counter
              blink_counter := 0
              last_blink_time := timestamp }
  else s1

/-- Embedding of FatigueAnalyzer._update_perclos: the frame state (1 for
closed, 0 for open, here a boolean) is appended to the bounded history deque
and perclos_value becomes closed-frames / total-frames over the history. -/
def update_perclos (is_closed : Bool) (p : FatigueParams) (s : FatigueState) :
    FatigueState :=
  let h := dequePush (p.perclos_window * 30) s.eye_state_history is_closed
  let perclos := if 0 < h.length then ((h.count true : ℚ) / (h.length : ℚ)) else 0
  { s with eye_state_history := h, perclos_value := perclos }

/-- Embedding of FatigueAnalyzer._update_closed_eye_duration: while closed,
the start timestamp is latched and the duration accumulated, with is_drowsy
set when the duration exceeds the closed_eye_duration threshold; an open frame
clears start, duration and is_drowsy. -/
def update_closed_eye_duration (is_closed : Bool) (timestamp : ℚ)
    (p : FatigueParams) (s : FatigueState) : FatigueState :=
  if is_closed then
    let s1 :=
      match s.eye_closed_start with
      | none => { s with eye_closed_start := some timestamp, eye_closed_duration := 0 }
      | some t0 => { s with eye_closed_duration := timestamp - t0 }
    { s1 with is_drowsy := decide (s1.eye_closed_duration > p.closed_eye_duration) }
  else
    { s with eye_closed_start := none, eye_closed_duration := 0, is_drowsy := false }

/-- Embedding of FatigueAnalyzer._calculate_fatigue_level: the first-match
cascade 3 / 2 / 1 / 0 over the current state fields. -/
def calculate_fatigue_level (p : FatigueParams) (s : FatigueState) : ℕ :=
  if s.perclos_value > 1/5 ∨ s.is_drowsy = true then 3
  else if s.perclos_value > p.perclos_threshold ∨ s.eye_closed_duration > 1 then 2
  else if s.perclos_value > 1/10 ∨ s.blinks_per_minute < p.blink_min ∨
      s.blinks_per_minute > p.blink_max then 1
  else 0

/-- Embedding of FatigueAnalyzer.update with the derived boolean
is_closed = avg_ear < ear_threshold taken as the frame input: steps 3 to 6 of
the source run in order (blink detection, PERCLOS, closed-eye duration,
fatigue level). -/
def update (is_closed : Bool) (timestamp : ℚ) (p : FatigueParams)
    (s : FatigueState) : FatigueState :=
  let s1 := update_blink_detection is_closed timestamp s
  let s2 := update_perclos is_closed p s1
  let s3 := update_closed_eye_duration is_closed timestamp p s2
  { s3 with fatigue_level := calculate_fatigue_level p s3 }

/-- Run a sequence of update calls, each input a pair of the derived
is_closed boolean and the frame timestamp. -/
def feed (p : FatigueParams) (inputs : List (Bool × ℚ)) (s : FatigueState) :
    FatigueState :=
  inputs.foldl (fun st i => update i.1 i.2 p st) s

end FatigueAnalyzer

/-- Arithmetic mean of a list of rationals, modelling numpy.mean on a
nonempty list of samples. -/
def listMean (h : List ℚ) : ℚ :=
  h.sum / (h.length : ℚ)

/-- Configuration parameters of DistanceMonitor.__init__. -/
structure DistanceParams where
  warning_distance : ℚ
  warning_duration : ℚ
  known_face_width : ℚ
  focal_length : ℚ
deriving Repr, DecidableEq

/-- Mutable state of a DistanceMonitor instance. -/
structure DistanceState where
  current_distance : ℚ
  too_close_start : Option ℚ
  too_close_duration : ℚ
  is_too_close : Bool
  distance_history : List ℚ
deriving Repr, DecidableEq

/-- Initial DistanceMonitor state as set by __init__. -/
def initDistanceState : DistanceState :=
  { current_distance := 0
    too_close_start := none
    too_close_duration := 0
    is_too_close := false
    distance_history := [] }

namespace DistanceMonitor

/-- History bound self.history_max_len fixed to 10 in __init__. -/
def history_max_len : ℕ := 10

/-- Embedding of DistanceMonitor.calculate_distance_by_face_width: the
similar-triangles estimate known_face_width * focal_length / face_box_width,
returning 0 on a zero-width (zero-denominator) input. -/
def calculate_distance_by_face_width (p : DistanceParams) (face_box_width : ℚ) : ℚ :=
  if face_box_width = 0 then 0
  else p.known_face_width * p.focal_length / face_box_width

/-- Step 2 of DistanceMonitor.update: a positive distance is appended to the
history, the history is trimmed from the front (one pop, as in the source) to
at most history_max_len samples, and current_distance becomes the mean of the
history; a non-positive distance leaves the history alone and sets
current_distance to 0. -/
def smooth (distance : ℚ) (s : DistanceState) : DistanceState :=
  if distance > 0 then
    let h2 := s.distance_history ++ [distance]
    let h3 := if h2.length > history_max_len then h2.drop 1 else h2
    { s with distance_history := h3, current_distance := listMean h3 }
  else
    { s with current_distance := 0 }

/-- Steps 3 and 4 of DistanceMonitor.update: while the published distance is
positive and below warning_distance the start is latched and the duration
accumulated, with is_too_close set once the duration reaches
warning_duration; otherwise start, duration and flag are cleared. -/
def update_too_close (timestamp : ℚ) (p : DistanceParams) (s1 : DistanceState) :
    DistanceState :=
  if s1.current_distance > 0 ∧ s1.current_distance < p.warning_distance then
    let s2 :=
      match s1.too_close_start with
      | none => { s1 with too_close_start := some timestamp, too_close_duration := 0 }
      | some t0 => { s1 with too_close_duration := timestamp - t0 }
    { s2 with is_too_close := decide (s2.too_close_duration ≥ p.warning_duration) }
  else
    { s1 with too_close_start := none, too_close_duration := 0, is_too_close := false }

/-- Embedding of DistanceMonitor.update, taking as input the distance computed
in step 1 of the source (0 when no usable input or a degenerate denominator
made the estimators return 0): the smoothing step followed by the too-close
latch update. -/
def update (distance : ℚ) (timestamp : ℚ) (p : DistanceParams) (s : DistanceState) :
    DistanceState :=
  update_too_close timestamp p (smooth distance s)

end DistanceMonitor

/-- Configuration parameters of PostureMonitor.__init__ used by update (the
camera intrinsics only feed the external solver). -/
structure PostureParams where
  pitch_threshold_down : ℚ
  pitch_threshold_up : ℚ
  warning_duration : ℚ
deriving Repr, DecidableEq

/-- Mutable state of a PostureMonitor instance. -/
structure PostureState where
  pitch : ℚ
  yaw : ℚ
  roll : ℚ
  bad_posture_start : Option ℚ
  bad_posture_duration : ℚ
  is_bad_posture : Bool
  posture_type : String
deriving Repr, DecidableEq

/-- Initial PostureMonitor state as set by __init__. -/
def initPostureState : PostureState :=
  { pitch := 0
    yaw := 0
    roll := 0
    bad_posture_start := none
    bad_posture_duration := 0
    is_bad_posture := false
    posture_type := "Normal" }

/-- Snapshot returned by PostureMonitor.get_status. -/
structure PostureStatus where
  pitch : ℚ
  yaw : ℚ
  roll : ℚ
  posture_type : String
  bad_posture_duration : ℚ
  is_bad_posture : Bool
deriving Repr, DecidableEq

namespace PostureMonitor

/-- Embedding of PostureMonitor.update.  The outcome of the external
cv2.solvePnP plus Rodrigues pipeline is the per-frame input: none models a
failed solve, some (pitch, yaw, roll) a successful solve with the resulting
Euler angles.  On success the angles are stored, the posture is classified
from pitch against the two thresholds, and the bad-posture latch is updated;
on failure only posture_type and is_bad_posture are written. -/
def update (solve : Option (ℚ × ℚ × ℚ)) (timestamp : ℚ) (p : PostureParams)
    (s : PostureState) : PostureState :=
  match solve with
  | some angles =>
    let s1 := { s with pitch := angles.1, yaw := angles.2.1, roll := angles.2.2 }
    let cls :=
      if s1.pitch > p.pitch_threshold_down then ("Head Down", true)
      else if s1.pitch < p.pitch_threshold_up then ("Head Up", true)
      else ("Normal", false)
    let s2 := { s1 with posture_type := cls.1 }
    if cls.2 then
      let s3 :=
        match s2.bad_posture_start with
        | none => { s2 with bad_posture_start := some timestamp, bad_posture_duration := 0 }
        | some t0 => { s2 with bad_posture_duration := timestamp - t0 }
      { s3 with is_bad_posture := decide (s3.bad_posture_duration ≥ p.warning_duration) }
    else
      { s2 with bad_posture_start := none, bad_posture_duration := 0, is_bad_posture := false }
  | none =>
    { s with posture_type := "Unknown", is_bad_posture := false }

/-- Embedding of PostureMonitor.get_status: a snapshot of the state fields. -/
def get_status (s : PostureState) : PostureStatus :=
  { pitch := s.pitch
    yaw := s.yaw
    roll := s.roll
    posture_type := s.posture_type
    bad_posture_duration := s.bad_posture_duration
    is_bad_posture := s.is_bad_posture }

end PostureMonitor

/-- Alert categories of the AlertType enum. -/
inductive AlertType where
  | fatigue
  | distance
  | posture
  | severe
deriving Repr, DecidableEq

/-- Alert severities of the AlertLevel enum. -/
inductive AlertLevel where
  | info
  | warning
  | critical
deriving Repr, DecidableEq

/-- The three sink slots an AlertManager can hold: the voice alerter
(set_voice_alert), the LED alerter (set_led_alert) and the GUI/Web alerter
(set_gui_alert). -/
inductive SinkKind where
  | voice
  | led
  | gui
deriving Repr, DecidableEq

/-- State of an AlertManager instance: the enable flags and cooldown from
__init__, one boolean per sink slot recording whether a sink object is
registered there, and the last-firing-time dictionary keyed by category. -/
structure AlertManager where
  enable_voice : Bool
  enable_led : Bool
  cooldown_time : ℚ
  voice_alert : Bool
  led_alert : Bool
  gui_alert : Bool
  last_alert_time : AlertType → Option ℚ

/-- Default cooldown_time argument of AlertManager.__init__ (seconds). -/
def default_cooldown_time : ℚ := 300

/-- AlertManager.__init__: no sinks registered, empty last-firing dictionary. -/
def initAlertManager (enable_voice enable_led : Bool) (cooldown_time : ℚ) :
    AlertManager :=
  { enable_voice := enable_voice
    enable_led := enable_led
    cooldown_time := cooldown_time
    voice_alert := false
    led_alert := false
    gui_alert := false
    last_alert_time := fun _ => none }

namespace AlertManager

/-- Embedding of AlertManager.set_voice_alert. -/
def set_voice_alert (m : AlertManager) : AlertManager :=
  { m with voice_alert := true }

/-- Embedding of AlertManager.set_led_alert. -/
def set_led_alert (m : AlertManager) : AlertManager :=
  { m with led_alert := true }

/-- Embedding of AlertManager.set_gui_alert. -/
def set_gui_alert (m : AlertManager) : AlertManager :=
  { m with gui_alert := true }

/-- Cooldown test on one dictionary entry, shared by can_alert and the
interleaving model below: passes when there is no prior record or when at
least cooldown_time has elapsed since the recorded firing. -/
def cooldown_passed (cooldown : ℚ) (now : ℚ) (last : Option ℚ) : Bool :=
  match last with
  | none => true
  | some l => decide (now - l ≥ cooldown)

/-- Embedding of AlertManager.can_alert: one lock-guarded read of the
last-firing dictionary followed by the cooldown test, at the current time. -/
def can_alert (m : AlertManager) (alert_type : AlertType) (now : ℚ) : Bool :=
  cooldown_passed m.cooldown_time now (m.last_alert_time alert_type)

/-- One dispatched sink invocation: which sink slot receives the event and the
message it is handed. -/
structure Dispatch where
  sink : SinkKind
  message : String
deriving Repr, DecidableEq

/-- Embedding of AlertManager.trigger_alert at time now: if can_alert fails
the call returns with no state change and no dispatch; otherwise the firing
time is recorded for the category and background dispatch threads are
started, one per sink the source actually starts a thread for — the voice
sink when enable_voice is set and a voice alerter is registered, and the
GUI/Web sink when one is registered (the source never starts a thread for the
LED sink: the branch commented as the LED alert dispatches to gui_alert, and
_trigger_led has no caller).  The returned list holds the dispatched sink
invocations. -/
def trigger_alert (m : AlertManager) (alert_type : AlertType) (message : String)
    (level : AlertLevel) (now : ℚ) : AlertManager × List Dispatch :=
  let _ := level
  if !(can_alert m alert_type now) then (m, [])
  else
    let m2 := { m with
      last_alert_time := fun c => if c = alert_type then some now else m.last_alert_time c }
    let ds :=
      (if m.enable_voice && m.voice_alert then [⟨SinkKind.voice, message⟩] else []) ++
      (if m.gui_alert then [⟨SinkKind.gui, message⟩] else [])
    (m2, ds)

/-- Outcome of a sink call: normal return or a raised exception message. -/
inductive SinkOutcome where
  | ok
  | exn (e : String)
deriving Repr, DecidableEq

/-- Embedding of the dispatch-thread bodies _trigger_voice and _trigger_gui:
the sink call runs inside a try/except, so whatever the sink does the thread
body returns normally and never propagates the exception. -/
def run_sink_guarded (outcome : SinkOutcome) : Unit :=
  match outcome with
  | SinkOutcome.ok => ()
  | SinkOutcome.exn _ => ()

end AlertManager

namespace AlertRace

/-- Interleaving model for two concurrent AlertManager.trigger_alert calls on
the same category.  The source takes the shared lock twice along the path: the
read-and-test inside can_alert is one critical section, and the write of
last_alert_time back in trigger_alert is a second, separate critical section.
Each critical section is therefore one atomic step of this model; between the
two steps of one thread, the other thread may run.  A program counter per
thread tracks progress: 0 before the check, 1 between check and record, 2
done.  The record step writes only when the check passed, since trigger_alert
returns early otherwise. -/
structure RaceState where
  last : Option ℚ
  passed0 : Bool
  passed1 : Bool
  pc0 : ℕ
  pc1 : ℕ
deriving Repr, DecidableEq

/-- Initial race state: no prior firing recorded for the category, both
threads about to run their can_alert check. -/
def initRaceState : RaceState :=
  { last := none, passed0 := false, passed1 := false, pc0 := 0, pc1 := 0 }

/-- One atomic step of the chosen thread (false picks thread 0, true picks
thread 1): its next critical section, exactly as delimited by the lock
acquisitions of the source. -/
def step (cooldown now0 now1 : ℚ) (i : Bool) (st : RaceState) : RaceState :=
  if i = false then
    if st.pc0 = 0 then
      { st with passed0 := AlertManager.cooldown_passed cooldown now0 st.last, pc0 := 1 }
    else if st.pc0 = 1 then
      if st.passed0 then { st with last := some now0, pc0 := 2 }
      else { st with pc0 := 2 }
    else st
  else
    if st.pc1 = 0 then
      { st with passed1 := AlertManager.cooldown_passed cooldown now1 st.last, pc1 := 1 }
    else if st.pc1 = 1 then
      if st.passed1 then { st with last := some now1, pc1 := 2 }
      else { st with pc1 := 2 }
    else st

/-- Run a schedule: the list names, in order, which thread performs its next
atomic step. -/
def run (cooldown now0 now1 : ℚ) (sched : List Bool) (st : RaceState) : RaceState :=
  sched.foldl (fun s i => step cooldown now0 now1 i s) st

/-- Holds when both threads have passed their can_alert check while the
category still has no recorded firing time, which is the situation the
specification asserts can never arise. -/
def both_passed_unrecorded (st : RaceState) : Bool :=
  st.passed0 && st.passed1 && st.last.isNone

end AlertRace

noncomputable section

/-- Euclidean distance between two planar points, modelling
numpy.linalg.norm of the difference of two 2-vectors (the source keeps only
the x and y coordinates of each eye landmark before measuring). -/
def dist2 (p q : ℝ × ℝ) : ℝ :=
  Real.sqrt ((p.1 - q.1) ^ 2 + (p.2 - q.2) ^ 2)

/-- Embedding of the static method FatigueAnalyzer.calculate_ear on the six
eye landmarks: EAR = (vertical_1 + vertical_2) / (2 * horizontal) with
vertical_1 the distance of points 1 and 5, vertical_2 the distance of points
2 and 4, and horizontal the distance of the corner points 0 and 3; a zero
horizontal distance yields 0. -/
def FatigueAnalyzer.calculate_ear (e : Fin 6 → ℝ × ℝ) : ℝ :=
  let vertical_1 := dist2 (e 1) (e 5)
  let vertical_2 := dist2 (e 2) (e 4)
  let horizontal := dist2 (e 0) (e 3)
  if horizontal = 0 then 0
  else (vertical_1 + vertical_2) / (2 * horizontal)

/-- Uniform scaling of all six eye landmarks by a factor k about the origin. -/
def scaleEye (k : ℝ) (e : Fin 6 → ℝ × ℝ) : Fin 6 → ℝ × ℝ :=
  fun i => (k * (e i).1, k * (e i).2)

/-- Concrete non-degenerate eye used to instantiate the EAR theorems: corners
at (0,0) and (4,0), upper lid at (1,2) and (3,2), lower lid at (3,-2) and
(1,-2). -/
def eyeA : Fin 6 → ℝ × ℝ :=
  ![(0, 0), (1, 2), (3, 2), (4, 0), (3, -2), (1, -2)]

/-- Concrete degenerate eye with all six landmarks coincident, so the
corner-to-corner distance is 0. -/
def eyeDegenerate : Fin 6 → ℝ × ℝ :=
  fun _ => (0, 0)

end

/-!
Helper lemmas: projection and frame facts about the sub-steps of the update
pipelines, used by the claim theorems below.
-/

namespace FatigueAnalyzer

/-- Blink detection does not touch the PERCLOS history or the closed-eye
fields. -/
theorem ubd_frame (b : Bool) (t : ℚ) (s : FatigueState) :
    (update_blink_detection b t s).eye_state_history = s.eye_state_history ∧
    (update_blink_detection b t s).perclos_value = s.perclos_value ∧
    (update_blink_detection b t s).eye_closed_start = s.eye_closed_start ∧
    (update_blink_detection b t s).eye_closed_duration = s.eye_closed_duration ∧
    (update_blink_detection b t s).is_drowsy = s.is_drowsy := by
  simp only [update_blink_detection]
  repeat' split
  all_goals exact ⟨rfl, rfl, rfl, rfl, rfl⟩

/-- The PERCLOS step does not touch the blink fields or the closed-eye
fields. -/
theorem up_frame (b : Bool) (p : FatigueParams) (s : FatigueState) :
    (update_perclos b p s).blink_counter = s.blink_counter ∧
    (update_perclos b p s).is_blinking = s.is_blinking ∧
    (update_perclos b p s).last_blink_time = s.last_blink_time ∧
    (update_perclos b p s).blinks_per_minute = s.blinks_per_minute ∧
    (update_perclos b p s).eye_closed_start = s.eye_closed_start ∧
    (update_perclos b p s).eye_closed_duration = s.eye_closed_duration ∧
    (update_perclos b p s).is_drowsy = s.is_drowsy :=
  ⟨rfl, rfl, rfl, rfl, rfl, rfl, rfl⟩

/-- The PERCLOS history written by the PERCLOS step. -/
theorem up_hist (b : Bool) (p : FatigueParams) (s : FatigueState) :
    (update_perclos b p s).eye_state_history =
      dequePush (p.perclos_window * 30) s.eye_state_history b :=
  rfl

/-- The PERCLOS value written by the PERCLOS step. -/
theorem up_pv (b : Bool) (p : FatigueParams) (s : FatigueState) :
    (update_perclos b p s).perclos_value =
      (if 0 < (dequePush (p.perclos_window * 30) s.eye_state_history b).length then
        ((dequePush (p.perclos_window * 30) s.eye_state_history b).count true : ℚ) /
          ((dequePush (p.perclos_window * 30) s.eye_state_history b).length : ℚ)
      else 0) :=
  rfl

/-- The closed-eye-duration step does not touch the blink fields or the
PERCLOS fields. -/
theorem ucd_frame (b : Bool) (t : ℚ) (p : FatigueParams) (s : FatigueState) :
    (update_closed_eye_duration b t p s).blink_counter = s.blink_counter ∧
    (update_closed_eye_duration b t p s).is_blinking = s.is_blinking ∧
    (update_closed_eye_duration b t p s).last_blink_time = s.last_blink_time ∧
    (update_closed_eye_duration b t p s).blinks_per_minute = s.blinks_per_minute ∧
    (update_closed_eye_duration b t p s).eye_state_history = s.eye_state_history ∧
    (update_closed_eye_duration b t p s).perclos_value = s.perclos_value := by
  obtain ⟨bc, ib, lbt, bpm, hist, pv, ecs, ecd, idr, fl⟩ := s
  cases b <;> cases ecs <;> simp [update_closed_eye_duration]

/-- The blink fields of a full update are those computed by the blink
detection step. -/
theorem update_blink_proj (b : Bool) (t : ℚ) (p : FatigueParams) (s : FatigueState) :
    (update b t p s).blinks_per_minute =
      (update_blink_detection b t s).blinks_per_minute ∧
    (update b t p s).blink_counter = (update_blink_detection b t s).blink_counter ∧
    (update b t p s).last_blink_time = (update_blink_detection b t s).last_blink_time ∧
    (update b t p s).is_blinking = (update_blink_detection b t s).is_blinking := by
  unfold update
  refine ⟨?_, ?_, ?_, ?_⟩ <;>
    simp [(ucd_frame b t p _).1, (ucd_frame b t p _).2.1, (ucd_frame b t p _).2.2.1,
      (ucd_frame b t p _).2.2.2.1, (up_frame b p _).1, (up_frame b p _).2.1,
      (up_frame b p _).2.2.1, (up_frame b p _).2.2.2.1]

/-- Characterization of the blink-detection step: with onset meaning a closed
frame arriving while not already blinking, the anchor last_blink_time moves to
the frame time on every onset; publication happens exactly when strictly more
than 60 seconds separate the frame from the (possibly just-moved) anchor. -/
theorem ubd_spec (b : Bool) (t : ℚ) (s : FatigueState) :
    (t - (if b && !s.is_blinking then t else s.last_blink_time) > 60 →
      (update_blink_detection b t s).blinks_per_minute = s.blink_counter ∧
      (update_blink_detection b t s).blink_counter = 0 ∧
      (update_blink_detection b t s).last_blink_time = t) ∧
    (t - (if b && !s.is_blinking then t else s.last_blink_time) ≤ 60 →
      (update_blink_detection b t s).blinks_per_minute = s.blinks_per_minute ∧
      (update_blink_detection b t s).blink_counter =
        (if b && !s.is_blinking then s.blink_counter + 1 else s.blink_counter) ∧
      (update_blink_detection b t s).last_blink_time =
        (if b && !s.is_blinking then t else s.last_blink_time)) := by
  obtain ⟨bc, ib, lbt, bpm, hist, pv, ecs, ecd, idr, fl⟩ := s
  cases b <;> cases ib <;>
    (constructor <;> intro h <;>
      simp_all only [Bool.and_self, Bool.not_false, Bool.not_true, Bool.and_false,
        Bool.and_true, Bool.false_and, Bool.true_and, if_true, if_false,
        update_blink_detection] <;>
      (try (exfalso; linarith)) <;>
      (try (split_ifs <;> simp_all <;> try linarith)))

/-- The history and PERCLOS value of a full update, expressed through the
bounded-deque push. -/
theorem update_history_proj (b : Bool) (t : ℚ) (p : FatigueParams) (s : FatigueState) :
    (update b t p s).eye_state_history =
      dequePush (p.perclos_window * 30) s.eye_state_history b ∧
    (update b t p s).perclos_value =
      (if 0 < (dequePush (p.perclos_window * 30) s.eye_state_history b).length then
        ((dequePush (p.perclos_window * 30) s.eye_state_history b).count true : ℚ) /
          ((dequePush (p.perclos_window * 30) s.eye_state_history b).length : ℚ)
      else 0) := by
  unfold update
  constructor
  · show (update_closed_eye_duration b t p
      (update_perclos b p (update_blink_detection b t s))).eye_state_history = _
    rw [(ucd_frame b t p _).2.2.2.2.1, up_hist, (ubd_frame b t s).1]
  · show (update_closed_eye_duration b t p
      (update_perclos b p (update_blink_detection b t s))).perclos_value = _
    rw [(ucd_frame b t p _).2.2.2.2.2, up_pv, (ubd_frame b t s).1]

/-- Unrolling a run of updates from the right. -/
theorem feed_append_singleton (p : FatigueParams) (L : List (Bool × ℚ)) (i : Bool × ℚ)
    (s : FatigueState) :
    feed p (L ++ [i]) s = update i.1 i.2 p (feed p L s) := by
  simp [feed, List.foldl_append]

/-- A run of pushes onto the bounded deque that never reaches the capacity is
a plain append. -/
theorem foldl_dequePush_of_le (cap : ℕ) :
    ∀ (L : List (Bool × ℚ)) (h : List Bool), h.length + L.length ≤ cap →
      L.foldl (fun acc i => dequePush cap acc i.1) h = h ++ L.map Prod.fst := by
  intro L
  induction L with
  | nil => intro h _; simp
  | cons i rest ih =>
    intro h hle
    have hlen : (h ++ [i.1]).length ≤ cap := by
      simp only [List.length_append, List.length_singleton]
      simp only [List.length_cons] at hle
      omega
    have hpush : dequePush cap h i.1 = h ++ [i.1] := by
      unfold dequePush
      exact if_pos hlen
    simp only [List.foldl_cons, List.map_cons, hpush]
    rw [ih (h ++ [i.1]) (by
      simp only [List.length_append, List.length_singleton]
      simp only [List.length_cons] at hle
      omega)]
    simp

/-- The history of a run of updates is the fold of deque pushes over the
is_closed inputs. -/
theorem feed_history (p : FatigueParams) :
    ∀ (inputs : List (Bool × ℚ)) (s : FatigueState),
      (feed p inputs s).eye_state_history =
        inputs.foldl (fun acc i => dequePush (p.perclos_window * 30) acc i.1)
          s.eye_state_history := by
  intro inputs
  induction inputs with
  | nil => intro s; rfl
  | cons i rest ih =>
    intro s
    show (feed p rest (update i.1 i.2 p s)).eye_state_history = _
    rw [ih (update i.1 i.2 p s), (update_history_proj i.1 i.2 p s).1]
    rfl

/-- After any nonempty run of updates, the PERCLOS value is closed-count over
length of the final history. -/
theorem feed_perclos_formula (p : FatigueParams) (L : List (Bool × ℚ)) (i : Bool × ℚ)
    (s : FatigueState) :
    (feed p (L ++ [i]) s).perclos_value =
      (if 0 < (feed p (L ++ [i]) s).eye_state_history.length then
        ((feed p (L ++ [i]) s).eye_state_history.count true : ℚ) /
          ((feed p (L ++ [i]) s).eye_state_history.length : ℚ)
      else 0) := by
  rw [feed_append_singleton]
  have h := update_history_proj i.1 i.2 p (feed p L s)
  rw [h.1, h.2]

end FatigueAnalyzer

namespace DistanceMonitor

/-- The too-close latch does not touch the published distance or the
history. -/
theorem utc_frame (t : ℚ) (p : DistanceParams) (s : DistanceState) :
    (update_too_close t p s).current_distance = s.current_distance ∧
    (update_too_close t p s).distance_history = s.distance_history := by
  obtain ⟨cd, tcs, tcd, itc, dh⟩ := s
  cases tcs <;> simp [update_too_close] <;> split_ifs <;> simp

end DistanceMonitor

/-- Scaling both end points by k scales a planar distance by the absolute
value of k. -/
theorem dist2_scale (k : ℝ) (p q : ℝ × ℝ) :
    dist2 (k * p.1, k * p.2) (k * q.1, k * q.2) = |k| * dist2 p q := by
  unfold dist2
  have h : (k * p.1 - k * q.1) ^ 2 + (k * p.2 - k * q.2) ^ 2 =
      k ^ 2 * ((p.1 - q.1) ^ 2 + (p.2 - q.2) ^ 2) := by ring
  rw [h, Real.sqrt_mul (sq_nonneg k), Real.sqrt_sq_eq_abs]

/-!
Claim theorems.
-/

/-- C1 (counterexample): starting a period at time 0, a single blink at t=50
followed by an open frame at t=70 leaves blinks_per_minute unpublished (0) and
the counter unreset (1), although 70 seconds have elapsed since the period
start: the blink onset moved the anchor to t=50, so the update at t=70 does
not publish, contradicting the claim that the update publishes once at least
60 seconds have elapsed since the period start and that blinks inside the
period do not move the period anchor. -/
theorem blink_period_counterexample :
    (70 : ℚ) - 0 ≥ 60 ∧
    (FatigueAnalyzer.feed defaultFatigueParams [(true, 50), (false, 70)]
        (initFatigueState 0)).blinks_per_minute = 0 ∧
    (FatigueAnalyzer.feed defaultFatigueParams [(true, 50), (false, 70)]
        (initFatigueState 0)).blink_counter = 1 ∧
    (FatigueAnalyzer.feed defaultFatigueParams [(true, 50), (false, 70)]
        (initFatigueState 0)).last_blink_time = 50 ∧
    ¬ ((FatigueAnalyzer.feed defaultFatigueParams [(true, 50), (false, 70)]
          (initFatigueState 0)).blinks_per_minute = 1 ∧
        (FatigueAnalyzer.feed defaultFatigueParams [(true, 50), (false, 70)]
          (initFatigueState 0)).blink_counter = 0 ∧
        (FatigueAnalyzer.feed defaultFatigueParams [(true, 50), (false, 70)]
          (initFatigueState 0)).last_blink_time = 70) := by
  norm_num [FatigueAnalyzer.feed, FatigueAnalyzer.update,
    FatigueAnalyzer.update_blink_detection, FatigueAnalyzer.update_perclos,
    FatigueAnalyzer.update_closed_eye_duration, FatigueAnalyzer.calculate_fatigue_level,
    dequePush, initFatigueState, defaultFatigueParams]

/-- C1 (amended): the blink accounting anchor last_blink_time is moved both by
every publication and by every blink onset; an update publishes exactly when
strictly more than 60 seconds separate its timestamp from the anchor as moved
by the frame itself (so a blink-onset frame never publishes).  On publication
blinks_per_minute becomes the accumulated counter, the counter resets to 0
and the anchor moves to now; otherwise blinks_per_minute is unchanged, the
counter is the accumulated counter (incremented on an onset) and the anchor
is moved only by an onset. -/
theorem blink_period_amended (b : Bool) (t : ℚ) (p : FatigueParams) (s : FatigueState) :
    (t - (if b && !s.is_blinking then t else s.last_blink_time) > 60 →
      (FatigueAnalyzer.update b t p s).blinks_per_minute = s.blink_counter ∧
      (FatigueAnalyzer.update b t p s).blink_counter = 0 ∧
      (FatigueAnalyzer.update b t p s).last_blink_time = t) ∧
    (t - (if b && !s.is_blinking then t else s.last_blink_time) ≤ 60 →
      (FatigueAnalyzer.update b t p s).blinks_per_minute = s.blinks_per_minute ∧
      (FatigueAnalyzer.update b t p s).blink_counter =
        (if b && !s.is_blinking then s.blink_counter + 1 else s.blink_counter) ∧
      (FatigueAnalyzer.update b t p s).last_blink_time =
        (if b && !s.is_blinking then t else s.last_blink_time)) := by
  have hp := FatigueAnalyzer.update_blink_proj b t p s
  rw [hp.1, hp.2.1, hp.2.2.1]
  exact FatigueAnalyzer.ubd_spec b t s

/-- Witness for the amended C1 theorem: a publishing frame (open frame at
t=100, anchor 0) and a non-publishing blink-onset frame (closed frame at
t=50). -/
theorem blink_period_amended_witness :
    ((FatigueAnalyzer.update false 100 defaultFatigueParams
        (initFatigueState 0)).blinks_per_minute = 0 ∧
      (FatigueAnalyzer.update false 100 defaultFatigueParams
        (initFatigueState 0)).blink_counter = 0 ∧
      (FatigueAnalyzer.update false 100 defaultFatigueParams
        (initFatigueState 0)).last_blink_time = 100) ∧
    ((FatigueAnalyzer.update true 50 defaultFatigueParams
        (initFatigueState 0)).blinks_per_minute = 0 ∧
      (FatigueAnalyzer.update true 50 defaultFatigueParams
        (initFatigueState 0)).blink_counter = 1 ∧
      (FatigueAnalyzer.update true 50 defaultFatigueParams
        (initFatigueState 0)).last_blink_time = 50) := by
  constructor
  · have h := (blink_period_amended false 100 defaultFatigueParams
      (initFatigueState 0)).1 (by norm_num [initFatigueState])
    simpa [initFatigueState] using h
  · have h := (blink_period_amended true 50 defaultFatigueParams
      (initFatigueState 0)).2 (by norm_num [initFatigueState])
    simpa [initFatigueState] using h

/-- Concrete DistanceMonitor configuration with the default constructor
arguments of the source. -/
def c2Params : DistanceParams :=
  { warning_distance := 50
    warning_duration := 30
    known_face_width := 29/2
    focal_length := 600 }

/-- C2 (counterexample): after one valid reading of 50 the smoothing buffer
holds [50] with mean 50, yet an update whose own computed distance is 0
publishes current_distance = 0 rather than the buffer mean, contradicting the
claim that the published value equals the buffer mean on a frame whose own
reading was invalid. -/
theorem distance_smoothing_counterexample :
    (DistanceMonitor.update 0 1 c2Params
        (DistanceMonitor.update 50 0 c2Params initDistanceState)).distance_history = [50] ∧
    listMean [50] = 50 ∧
    (DistanceMonitor.update 0 1 c2Params
        (DistanceMonitor.update 50 0 c2Params initDistanceState)).current_distance = 0 ∧
    (DistanceMonitor.update 0 1 c2Params
        (DistanceMonitor.update 50 0 c2Params initDistanceState)).current_distance ≠
      listMean (DistanceMonitor.update 0 1 c2Params
        (DistanceMonitor.update 50 0 c2Params initDistanceState)).distance_history := by
  norm_num [DistanceMonitor.update, DistanceMonitor.smooth, DistanceMonitor.update_too_close,
    DistanceMonitor.history_max_len, listMean, initDistanceState, c2Params]

/-- C2 (amended): a non-positive computed distance is excluded from the
smoothing buffer and the buffer holds at most 10 positive samples with the
oldest evicted first; on a frame with a valid (>0) reading the published
current_distance equals the mean of the buffer, but on a frame whose own
reading was invalid the buffer is left unchanged and current_distance is
published as 0 rather than the buffer mean. -/
theorem distance_smoothing_amended (d t : ℚ) (p : DistanceParams) (s : DistanceState) :
    (d ≤ 0 →
      (DistanceMonitor.update d t p s).distance_history = s.distance_history ∧
      (DistanceMonitor.update d t p s).current_distance = 0) ∧
    (0 < d → s.distance_history.length ≤ DistanceMonitor.history_max_len →
      ((DistanceMonitor.update d t p s).distance_history <:+ s.distance_history ++ [d] ∧
        (DistanceMonitor.update d t p s).distance_history.length =
          min (s.distance_history.length + 1) DistanceMonitor.history_max_len ∧
        (DistanceMonitor.update d t p s).current_distance =
          listMean (DistanceMonitor.update d t p s).distance_history) ∧
      ((∀ x ∈ s.distance_history, 0 < x) →
        ∀ x ∈ (DistanceMonitor.update d t p s).distance_history, 0 < x)) := by
  have hu : DistanceMonitor.update d t p s =
      DistanceMonitor.update_too_close t p (DistanceMonitor.smooth d s) := rfl
  have hf := DistanceMonitor.utc_frame t p (DistanceMonitor.smooth d s)
  constructor
  · intro hd
    have hns : ¬ d > 0 := not_lt.mpr hd
    have hsm1 : (DistanceMonitor.smooth d s).distance_history = s.distance_history := by
      unfold DistanceMonitor.smooth
      rw [if_neg hns]
    have hsm2 : (DistanceMonitor.smooth d s).current_distance = 0 := by
      unfold DistanceMonitor.smooth
      rw [if_neg hns]
    exact ⟨by rw [hu, hf.2, hsm1], by rw [hu, hf.1, hsm2]⟩
  · intro hd hlen
    have hsm1 : (DistanceMonitor.smooth d s).distance_history =
        (if (s.distance_history ++ [d]).length > DistanceMonitor.history_max_len
          then (s.distance_history ++ [d]).drop 1 else s.distance_history ++ [d]) := by
      unfold DistanceMonitor.smooth
      rw [if_pos hd]
    have hsm2 : (DistanceMonitor.smooth d s).current_distance =
        listMean ((if (s.distance_history ++ [d]).length > DistanceMonitor.history_max_len
          then (s.distance_history ++ [d]).drop 1 else s.distance_history ++ [d])) := by
      unfold DistanceMonitor.smooth
      rw [if_pos hd]
    constructor
    · refine ⟨?_, ?_, ?_⟩
      · rw [hu, hf.2, hsm1]
        by_cases hfull : (s.distance_history ++ [d]).length > DistanceMonitor.history_max_len
        · rw [if_pos hfull]
          exact List.drop_suffix 1 _
        · rw [if_neg hfull]
      · rw [hu, hf.2, hsm1]
        by_cases hfull : (s.distance_history ++ [d]).length > DistanceMonitor.history_max_len
        · rw [if_pos hfull]
          simp only [List.length_drop, List.length_append, List.length_singleton]
          simp only [List.length_append, List.length_singleton] at hfull
          simp only [DistanceMonitor.history_max_len] at *
          omega
        · rw [if_neg hfull]
          simp only [List.length_append, List.length_singleton]
          simp only [List.length_append, List.length_singleton] at hfull
          simp only [DistanceMonitor.history_max_len] at *
          omega
      · rw [hu, hf.1, hf.2, hsm1, hsm2]
    · intro hall x hx
      rw [hu, hf.2, hsm1] at hx
      have hx2 : x ∈ s.distance_history ++ [d] := by
        by_cases hfull : (s.distance_history ++ [d]).length > DistanceMonitor.history_max_len
        · rw [if_pos hfull] at hx
          exact List.mem_of_mem_drop hx
        · rw [if_neg hfull] at hx
          exact hx
      rcases List.mem_append.mp hx2 with h | h
      · exact hall x h
      · rw [List.mem_singleton] at h
        rw [h]
        exact hd

/-- Concrete DistanceMonitor state holding one valid smoothed sample. -/
def c2WitState : DistanceState :=
  { current_distance := 50
    too_close_start := none
    too_close_duration := 0
    is_too_close := false
    distance_history := [50] }

/-- Witness for the amended C2 theorem: an invalid frame (distance 0) keeps
the one-sample buffer and publishes 0; a valid frame (distance 50) appends to
the buffer and publishes its mean. -/
theorem distance_smoothing_amended_witness :
    ((DistanceMonitor.update 0 1 c2Params c2WitState).distance_history =
        c2WitState.distance_history ∧
      (DistanceMonitor.update 0 1 c2Params c2WitState).current_distance = 0) ∧
    ((DistanceMonitor.update 50 1 c2Params c2WitState).distance_history <:+
        c2WitState.distance_history ++ [50] ∧
      (DistanceMonitor.update 50 1 c2Params c2WitState).distance_history.length =
        min (c2WitState.distance_history.length + 1) DistanceMonitor.history_max_len ∧
      (DistanceMonitor.update 50 1 c2Params c2WitState).current_distance =
        listMean (DistanceMonitor.update 50 1 c2Params c2WitState).distance_history) :=
  ⟨(distance_smoothing_amended 0 1 c2Params c2WitState).1 (by norm_num),
   ((distance_smoothing_amended 50 1 c2Params c2WitState).2 (by norm_num)
     (by norm_num [c2WitState, DistanceMonitor.history_max_len])).1⟩

/-- C3 (counterexample): it is not the case that every interleaving of two
concurrent trigger_alert calls for one category keeps some thread from
passing the can_alert check while the other has passed but not yet recorded:
under the schedule where both threads run their separately-locked can_alert
sections first, both pass while the category still has no recorded firing
time. -/
theorem alert_lock_atomicity_counterexample :
    ¬ (∀ sched : List Bool,
        AlertRace.both_passed_unrecorded
          (AlertRace.run default_cooldown_time 0 0 sched AlertRace.initRaceState) = false) := by
  intro hall
  have h := hall [false, true]
  norm_num [AlertRace.run, AlertRace.step, AlertRace.initRaceState,
    AlertRace.both_passed_unrecorded, AlertManager.cooldown_passed] at h

/-- C3 (amended): the cooldown check of can_alert and the recording of the
firing timestamp are each atomic under their own separate acquisition of the
shared lock, but the composite check-then-record sequence is not atomic: the
schedule check0-check1-record0-record1 lets both concurrent evaluations pass
can_alert before either records (and both then record and dispatch within one
cooldown window), while a fully sequential schedule lets only the first
evaluation pass. -/
theorem alert_lock_two_acquisitions_amended :
    AlertRace.both_passed_unrecorded
      (AlertRace.run default_cooldown_time 0 0 [false, true] AlertRace.initRaceState) =
        true ∧
    ((AlertRace.run default_cooldown_time 0 0 [false, true, false, true]
        AlertRace.initRaceState).passed0 = true ∧
      (AlertRace.run default_cooldown_time 0 0 [false, true, false, true]
        AlertRace.initRaceState).passed1 = true ∧
      (AlertRace.run default_cooldown_time 0 0 [false, true, false, true]
        AlertRace.initRaceState).pc0 = 2 ∧
      (AlertRace.run default_cooldown_time 0 0 [false, true, false, true]
        AlertRace.initRaceState).pc1 = 2 ∧
      (AlertRace.run default_cooldown_time 0 0 [false, true, false, true]
        AlertRace.initRaceState).last = some 0) ∧
    ((AlertRace.run default_cooldown_time 0 0 [false, false, true, true]
        AlertRace.initRaceState).passed0 = true ∧
      (AlertRace.run default_cooldown_time 0 0 [false, false, true, true]
        AlertRace.initRaceState).passed1 = false ∧
      (AlertRace.run default_cooldown_time 0 0 [false, false, true, true]
        AlertRace.initRaceState).last = some 0) := by
  refine ⟨?_, ?_, ?_⟩ <;>
    norm_num [AlertRace.run, AlertRace.step, AlertRace.initRaceState,
      AlertRace.both_passed_unrecorded, AlertManager.cooldown_passed,
      default_cooldown_time]

/-- Concrete AlertManager exhibiting the C4 failure: voice alerts enabled but
no voice alerter registered, an LED alerter registered via set_led_alert, no
GUI alerter, empty cooldown history. -/
def c4FailingManager : AlertManager :=
  AlertManager.set_led_alert (initAlertManager true false 300)

/-- C4 (code evaluation): no trigger_alert call ever hands the event to the
LED sink slot, and on the concrete failing input (LED alerter registered,
cooldown check passing) the dispatch list is empty: the registered LED sink
does not receive the event although the firing is recorded, contradicting the
claim that a sink registered via set_led_alert receives the event. -/
theorem led_sink_never_dispatched :
    (∀ (m : AlertManager) (cat : AlertType) (msg : String) (lvl : AlertLevel) (now : ℚ),
      ((AlertManager.trigger_alert m cat msg lvl now).2.all
        (fun dp => decide (dp.sink ≠ SinkKind.led))) = true) ∧
    AlertManager.can_alert c4FailingManager AlertType.fatigue 0 = true ∧
    (AlertManager.trigger_alert c4FailingManager AlertType.fatigue "fatigue alert"
        AlertLevel.warning 0).2 = [] := by
  refine ⟨?_, ?_, ?_⟩
  · intro m cat msg lvl now
    unfold AlertManager.trigger_alert
    split_ifs with h1 h2 h3 <;> simp
  · rfl
  · rfl

/-- C5: can_alert is true exactly when the category has no prior firing
record or at least cooldown_time has elapsed since the recorded firing (the
constructor default being 300 seconds); consequently, sequentially, two
trigger_alert calls for one category within the cooldown window yield exactly
one sink dispatch and a third call after the cooldown elapses yields a
second. -/
theorem cooldown_gate_spec :
    (∀ (m : AlertManager) (cat : AlertType) (now : ℚ),
      AlertManager.can_alert m cat now = true ↔
        (m.last_alert_time cat = none ∨
          ∃ l, m.last_alert_time cat = some l ∧ now - l ≥ m.cooldown_time)) ∧
    default_cooldown_time = 300 ∧
    (∀ (c t0 t1 t2 : ℚ) (cat : AlertType) (msg : String) (lvl : AlertLevel),
      t1 - t0 < c → t2 - t0 ≥ c →
      (AlertManager.trigger_alert (AlertManager.set_gui_alert (initAlertManager false false c))
        cat msg lvl t0).2.length = 1 ∧
      (AlertManager.trigger_alert
        (AlertManager.trigger_alert (AlertManager.set_gui_alert (initAlertManager false false c))
          cat msg lvl t0).1 cat msg lvl t1).2.length = 0 ∧
      (AlertManager.trigger_alert
        (AlertManager.trigger_alert
          (AlertManager.trigger_alert (AlertManager.set_gui_alert (initAlertManager false false c))
            cat msg lvl t0).1 cat msg lvl t1).1 cat msg lvl t2).2.length = 1) := by
  refine ⟨?_, rfl, ?_⟩
  · intro m cat now
    unfold AlertManager.can_alert AlertManager.cooldown_passed
    cases hm : m.last_alert_time cat with
    | none => simp
    | some l =>
      simp only [decide_eq_true_eq]
      constructor
      · intro h
        exact Or.inr ⟨l, rfl, h⟩
      · rintro (h | ⟨l2, hl2, h⟩)
        · exact absurd h (by simp)
        · injection hl2 with he
          rw [he]
          exact h
  · intro c t0 t1 t2 cat msg lvl h1 h2
    have e1 : AlertManager.trigger_alert
        (AlertManager.set_gui_alert (initAlertManager false false c)) cat msg lvl t0 =
        ({ enable_voice := false, enable_led := false, cooldown_time := c,
           voice_alert := false, led_alert := false, gui_alert := true,
           last_alert_time := fun x => if x = cat then some t0 else none },
         [⟨SinkKind.gui, msg⟩]) := by
      unfold AlertManager.trigger_alert AlertManager.can_alert AlertManager.cooldown_passed
      simp [AlertManager.set_gui_alert, initAlertManager]
    rw [e1]
    have hc1 : AlertManager.can_alert
        { enable_voice := false, enable_led := false, cooldown_time := c,
          voice_alert := false, led_alert := false, gui_alert := true,
          last_alert_time := fun x => if x = cat then some t0 else none } cat t1 = false := by
      unfold AlertManager.can_alert AlertManager.cooldown_passed
      simp only [if_pos rfl]
      simp [not_le.mpr h1]
    have e2 : AlertManager.trigger_alert
        { enable_voice := false, enable_led := false, cooldown_time := c,
          voice_alert := false, led_alert := false, gui_alert := true,
          last_alert_time := fun x => if x = cat then some t0 else none } cat msg lvl t1 =
        ({ enable_voice := false, enable_led := false, cooldown_time := c,
           voice_alert := false, led_alert := false, gui_alert := true,
           last_alert_time := fun x => if x = cat then some t0 else none },
         []) := by
      unfold AlertManager.trigger_alert
      rw [hc1]
      simp
    rw [e2]
    have hc2 : AlertManager.can_alert
        { enable_voice := false, enable_led := false, cooldown_time := c,
          voice_alert := false, led_alert := false, gui_alert := true,
          last_alert_time := fun x => if x = cat then some t0 else none } cat t2 = true := by
      unfold AlertManager.can_alert AlertManager.cooldown_passed
      simp only [if_pos rfl]
      simp [h2]
    have e3 : (AlertManager.trigger_alert
        { enable_voice := false, enable_led := false, cooldown_time := c,
          voice_alert := false, led_alert := false, gui_alert := true,
          last_alert_time := fun x => if x = cat then some t0 else none } cat msg lvl t2).2 =
        [⟨SinkKind.gui, msg⟩] := by
      unfold AlertManager.trigger_alert
      rw [hc2]
      simp
    rw [e3]
    exact ⟨rfl, rfl, rfl⟩

/-- Witness for C5: cooldown 300, firings attempted at times 0, 100 and 300
with one GUI sink registered dispatch once, zero times and once. -/
theorem cooldown_gate_spec_witness :
    (AlertManager.trigger_alert (AlertManager.set_gui_alert (initAlertManager false false 300))
      AlertType.fatigue "take a break" AlertLevel.warning 0).2.length = 1 ∧
    (AlertManager.trigger_alert
      (AlertManager.trigger_alert (AlertManager.set_gui_alert (initAlertManager false false 300))
        AlertType.fatigue "take a break" AlertLevel.warning 0).1 AlertType.fatigue
      "take a break" AlertLevel.warning 100).2.length = 0 ∧
    (AlertManager.trigger_alert
      (AlertManager.trigger_alert
        (AlertManager.trigger_alert (AlertManager.set_gui_alert (initAlertManager false false 300))
          AlertType.fatigue "take a break" AlertLevel.warning 0).1 AlertType.fatigue
        "take a break" AlertLevel.warning 100).1 AlertType.fatigue "take a break"
      AlertLevel.warning 300).2.length = 1 :=
  cooldown_gate_spec.2.2 300 0 100 300 AlertType.fatigue "take a break"
    AlertLevel.warning (by norm_num) (by norm_num)

/-- C6: after every update the fatigue level equals the first-match-wins
cascade over the updated state (3 on PERCLOS > 0.20 or drowsiness, else 2 on
PERCLOS > perclos_threshold or closed-eye duration > 1s, else 1 on
PERCLOS > 0.10 or a blink rate outside blink_min..blink_max, else 0); in
particular PERCLOS = 0.25 with is_drowsy = false yields level 3 whatever the
other fields hold. -/
theorem fatigue_level_cascade :
    (∀ (b : Bool) (t : ℚ) (p : FatigueParams) (s : FatigueState),
      (FatigueAnalyzer.update b t p s).fatigue_level =
        (if (FatigueAnalyzer.update b t p s).perclos_value > 1/5 ∨
            (FatigueAnalyzer.update b t p s).is_drowsy = true then 3
         else if (FatigueAnalyzer.update b t p s).perclos_value > p.perclos_threshold ∨
            (FatigueAnalyzer.update b t p s).eye_closed_duration > 1 then 2
         else if (FatigueAnalyzer.update b t p s).perclos_value > 1/10 ∨
            (FatigueAnalyzer.update b t p s).blinks_per_minute < p.blink_min ∨
            (FatigueAnalyzer.update b t p s).blinks_per_minute > p.blink_max then 1
         else 0)) ∧
    (∀ (p : FatigueParams) (s : FatigueState),
      s.perclos_value = 1/4 → s.is_drowsy = false →
        FatigueAnalyzer.calculate_fatigue_level p s = 3) := by
  constructor
  · intro b t p s
    rfl
  · intro p s h1 h2
    unfold FatigueAnalyzer.calculate_fatigue_level
    rw [h1, h2]
    norm_num

/-- Concrete FatigueAnalyzer state with PERCLOS 0.25 and no drowsiness. -/
def c6State : FatigueState :=
  { initFatigueState 0 with perclos_value := 1/4 }

/-- Witness for C6: level 3 at PERCLOS 0.25 without drowsiness, and the
cascade at a concrete update. -/
theorem fatigue_level_cascade_witness :
    (FatigueAnalyzer.update true 1 defaultFatigueParams
        (initFatigueState 0)).fatigue_level =
      (if (FatigueAnalyzer.update true 1 defaultFatigueParams
            (initFatigueState 0)).perclos_value > 1/5 ∨
          (FatigueAnalyzer.update true 1 defaultFatigueParams
            (initFatigueState 0)).is_drowsy = true then 3
       else if (FatigueAnalyzer.update true 1 defaultFatigueParams
            (initFatigueState 0)).perclos_value > defaultFatigueParams.perclos_threshold ∨
          (FatigueAnalyzer.update true 1 defaultFatigueParams
            (initFatigueState 0)).eye_closed_duration > 1 then 2
       else if (FatigueAnalyzer.update true 1 defaultFatigueParams
            (initFatigueState 0)).perclos_value > 1/10 ∨
          (FatigueAnalyzer.update true 1 defaultFatigueParams
            (initFatigueState 0)).blinks_per_minute < defaultFatigueParams.blink_min ∨
          (FatigueAnalyzer.update true 1 defaultFatigueParams
            (initFatigueState 0)).blinks_per_minute > defaultFatigueParams.blink_max then 1
       else 0) ∧
    FatigueAnalyzer.calculate_fatigue_level defaultFatigueParams c6State = 3 :=
  ⟨fatigue_level_cascade.1 true 1 defaultFatigueParams (initFatigueState 0),
   fatigue_level_cascade.2 defaultFatigueParams c6State rfl rfl⟩

/-- C7: on a frame whose pose solve fails, update leaves the stored pitch,
yaw and roll and the accumulated bad-posture start and duration exactly as
they were and only writes posture_type to Unknown and is_bad_posture to
false; any successful frame re-classifies the posture as one of Head Down,
Head Up or Normal, so the Unknown report lasts for the failed frame only and
a single failed frame never resets an accumulated bad-posture duration. -/
theorem pose_failure_freezes_state :
    (∀ (t : ℚ) (p : PostureParams) (s : PostureState),
      PostureMonitor.update none t p s =
        { s with posture_type := "Unknown", is_bad_posture := false }) ∧
    (∀ (a : ℚ × ℚ × ℚ) (t : ℚ) (p : PostureParams) (s : PostureState),
      (PostureMonitor.update (some a) t p s).posture_type = "Head Down" ∨
      (PostureMonitor.update (some a) t p s).posture_type = "Head Up" ∨
      (PostureMonitor.update (some a) t p s).posture_type = "Normal") := by
  constructor
  · intro t p s
    rfl
  · intro a t p s
    obtain ⟨pi, ya, ro, bps, bpd, ibp, pt⟩ := s
    cases bps <;>
      simp [PostureMonitor.update] <;> split_ifs <;> simp

/-- C8: calculate_ear equals the mean of the two vertical eyelid-pair
distances divided by the corner-to-corner distance, returns 0 when the
corner-to-corner distance is 0, and is invariant under uniform scaling of all
six landmarks by any positive factor. -/
theorem calculate_ear_spec :
    (∀ e : Fin 6 → ℝ × ℝ, dist2 (e 0) (e 3) = 0 →
      FatigueAnalyzer.calculate_ear e = 0) ∧
    (∀ e : Fin 6 → ℝ × ℝ, dist2 (e 0) (e 3) ≠ 0 →
      FatigueAnalyzer.calculate_ear e =
        ((dist2 (e 1) (e 5) + dist2 (e 2) (e 4)) / 2) / dist2 (e 0) (e 3)) ∧
    (∀ (k : ℝ) (e : Fin 6 → ℝ × ℝ), 0 < k →
      FatigueAnalyzer.calculate_ear (scaleEye k e) = FatigueAnalyzer.calculate_ear e) := by
  refine ⟨?_, ?_, ?_⟩
  · intro e h
    simp only [FatigueAnalyzer.calculate_ear]
    rw [if_pos h]
  · intro e h
    simp only [FatigueAnalyzer.calculate_ear]
    rw [if_neg h, div_div]
  · intro k e hk
    have hs : ∀ i j : Fin 6,
        dist2 (scaleEye k e i) (scaleEye k e j) = |k| * dist2 (e i) (e j) := by
      intro i j
      exact dist2_scale k (e i) (e j)
    simp only [FatigueAnalyzer.calculate_ear]
    rw [hs 1 5, hs 2 4, hs 0 3]
    by_cases h : dist2 (e 0) (e 3) = 0
    · rw [h, mul_zero]
      simp
    · have hkne : |k| ≠ 0 := abs_ne_zero.mpr (ne_of_gt hk)
      rw [if_neg (mul_ne_zero hkne h), if_neg h]
      field_simp
      ring

/-- Witness for C8: the degenerate eye yields 0, the concrete eye with
corners (0,0) and (4,0) satisfies the ratio formula, and scaling it by 2
leaves the EAR unchanged. -/
theorem calculate_ear_spec_witness :
    FatigueAnalyzer.calculate_ear eyeDegenerate = 0 ∧
    FatigueAnalyzer.calculate_ear eyeA =
      ((dist2 (eyeA 1) (eyeA 5) + dist2 (eyeA 2) (eyeA 4)) / 2) / dist2 (eyeA 0) (eyeA 3) ∧
    FatigueAnalyzer.calculate_ear (scaleEye 2 eyeA) = FatigueAnalyzer.calculate_ear eyeA := by
  have h03 : dist2 (eyeA 0) (eyeA 3) = 4 := by
    have he : dist2 (eyeA 0) (eyeA 3) =
        Real.sqrt (((0:ℝ) - 4) ^ 2 + ((0:ℝ) - 0) ^ 2) := rfl
    rw [he, show ((0:ℝ) - 4) ^ 2 + ((0:ℝ) - 0) ^ 2 = 16 by norm_num,
      show (16:ℝ) = 4 ^ 2 by norm_num]
    exact Real.sqrt_sq (by norm_num)
  have hdeg : dist2 (eyeDegenerate 0) (eyeDegenerate 3) = 0 := by
    have he : dist2 (eyeDegenerate 0) (eyeDegenerate 3) =
        Real.sqrt (((0:ℝ) - 0) ^ 2 + ((0:ℝ) - 0) ^ 2) := rfl
    rw [he]
    norm_num
  refine ⟨calculate_ear_spec.1 eyeDegenerate hdeg,
    calculate_ear_spec.2.1 eyeA ?_,
    calculate_ear_spec.2.2 2 eyeA (by norm_num)⟩
  rw [h03]
  norm_num

/-- C9: every update appends the frame state to the PERCLOS history, keeping
it a suffix of the old history plus the new entry of length at most the
window capacity perclos_window * 30 (so the oldest entries are evicted
first), and the PERCLOS value is closed-count over length of the resulting
history; feeding W/2 closed then W/2 open frames into a fresh analyzer whose
capacity is W yields PERCLOS exactly 1/2 with the window exactly full. -/
theorem perclos_history_spec :
    (∀ (b : Bool) (t : ℚ) (p : FatigueParams) (s : FatigueState),
      s.eye_state_history.length ≤ p.perclos_window * 30 →
        ((FatigueAnalyzer.update b t p s).eye_state_history <:+
            s.eye_state_history ++ [b] ∧
          (FatigueAnalyzer.update b t p s).eye_state_history.length =
            min (s.eye_state_history.length + 1) (p.perclos_window * 30)) ∧
        (0 < (FatigueAnalyzer.update b t p s).eye_state_history.length →
          (FatigueAnalyzer.update b t p s).perclos_value =
            ((FatigueAnalyzer.update b t p s).eye_state_history.count true : ℚ) /
              ((FatigueAnalyzer.update b t p s).eye_state_history.length : ℚ))) ∧
    (∀ (p : FatigueParams) (m : ℕ) (inputs : List (Bool × ℚ)) (t0 : ℚ),
      0 < m → p.perclos_window * 30 = 2 * m →
      inputs.map Prod.fst = List.replicate m true ++ List.replicate m false →
        (FatigueAnalyzer.feed p inputs (initFatigueState t0)).perclos_value = 1/2 ∧
        (FatigueAnalyzer.feed p inputs (initFatigueState t0)).eye_state_history.length =
          p.perclos_window * 30) := by
  constructor
  · intro b t p s hlen
    have h := FatigueAnalyzer.update_history_proj b t p s
    constructor
    · by_cases hle : (s.eye_state_history ++ [b]).length ≤ p.perclos_window * 30
      · have hdq : dequePush (p.perclos_window * 30) s.eye_state_history b =
            s.eye_state_history ++ [b] := by
          unfold dequePush
          exact if_pos hle
        rw [h.1, hdq]
        refine ⟨List.suffix_refl _, ?_⟩
        simp only [List.length_append, List.length_singleton] at *
        omega
      · have hdq : dequePush (p.perclos_window * 30) s.eye_state_history b =
            (s.eye_state_history ++ [b]).drop
              ((s.eye_state_history ++ [b]).length - p.perclos_window * 30) := by
          unfold dequePush
          exact if_neg hle
        rw [h.1, hdq]
        refine ⟨List.drop_suffix _ _, ?_⟩
        simp only [List.length_drop, List.length_append, List.length_singleton] at *
        omega
    · intro hpos
      rw [h.1] at hpos
      rw [h.2, h.1, if_pos hpos]
  · intro p m inputs t0 hm hcap hmap
    have hlen_inputs : inputs.length = 2 * m := by
      have h1 := congrArg List.length hmap
      simp only [List.length_map, List.length_append, List.length_replicate] at h1
      omega
    have hhist : (FatigueAnalyzer.feed p inputs (initFatigueState t0)).eye_state_history =
        List.replicate m true ++ List.replicate m false := by
      rw [FatigueAnalyzer.feed_history]
      have h0 : (initFatigueState t0).eye_state_history = [] := rfl
      rw [h0, FatigueAnalyzer.foldl_dequePush_of_le (p.perclos_window * 30) inputs []
        (by simp [hlen_inputs, hcap]), hmap]
      simp
    have hcount : (List.replicate m true ++ List.replicate m false).count true = m := by
      simp [List.count_append, List.count_replicate]
    have hlenh : (List.replicate m true ++ List.replicate m false).length = 2 * m := by
      simp [List.length_append, List.length_replicate]
      omega
    constructor
    · rcases List.eq_nil_or_concat inputs with hnil | ⟨L, i, hconcat⟩
      · rw [hnil] at hlen_inputs
        simp at hlen_inputs
        omega
      · rw [List.concat_eq_append] at hconcat
        rw [hconcat] at hhist ⊢
        rw [FatigueAnalyzer.feed_perclos_formula p L i (initFatigueState t0)]
        rw [hhist, hcount, hlenh]
        rw [if_pos (by omega)]
        have hmQ : (0:ℚ) < (m:ℚ) := by exact_mod_cast hm
        push_cast
        rw [div_eq_iff (by linarith)]
        ring
    · rw [hhist, hlenh, hcap]

/-- Concrete FatigueAnalyzer configuration with a one-second PERCLOS window,
giving a history capacity of 30 frames. -/
def c9Params : FatigueParams :=
  { ear_threshold := 1/4
    perclos_threshold := 3/20
    perclos_window := 1
    blink_min := 10
    blink_max := 30
    closed_eye_duration := 2 }

/-- Witness for C9: a single update on a fresh analyzer with one-second
window (capacity 30), and a fill of 15 closed plus 15 open frames reaching
PERCLOS 1/2. -/
theorem perclos_history_spec_witness :
    (((FatigueAnalyzer.update true 0 defaultFatigueParams
          (initFatigueState 0)).eye_state_history <:+
        (initFatigueState 0).eye_state_history ++ [true] ∧
      (FatigueAnalyzer.update true 0 defaultFatigueParams
          (initFatigueState 0)).eye_state_history.length =
        min ((initFatigueState 0).eye_state_history.length + 1)
          (defaultFatigueParams.perclos_window * 30)) ∧
     (0 < (FatigueAnalyzer.update true 0 defaultFatigueParams
          (initFatigueState 0)).eye_state_history.length →
       (FatigueAnalyzer.update true 0 defaultFatigueParams
          (initFatigueState 0)).perclos_value =
         ((FatigueAnalyzer.update true 0 defaultFatigueParams
            (initFatigueState 0)).eye_state_history.count true : ℚ) /
           ((FatigueAnalyzer.update true 0 defaultFatigueParams
            (initFatigueState 0)).eye_state_history.length : ℚ))) ∧
    ((FatigueAnalyzer.feed c9Params
        (List.replicate 15 ((true : Bool), (0:ℚ)) ++
          List.replicate 15 ((false : Bool), (0:ℚ)))
        (initFatigueState 0)).perclos_value = 1/2 ∧
     (FatigueAnalyzer.feed c9Params
        (List.replicate 15 ((true : Bool), (0:ℚ)) ++
          List.replicate 15 ((false : Bool), (0:ℚ)))
        (initFatigueState 0)).eye_state_history.length = c9Params.perclos_window * 30) :=
  ⟨perclos_history_spec.1 true 0 defaultFatigueParams (initFatigueState 0)
      (by norm_num [initFatigueState, defaultFatigueParams]),
   perclos_history_spec.2 c9Params 15
      (List.replicate 15 ((true : Bool), (0:ℚ)) ++ List.replicate 15 ((false : Bool), (0:ℚ)))
      0 (by norm_num) (by norm_num [c9Params]) (by simp)⟩

/-- C10: on a frame whose pose solve fails, get_status reports
is_bad_posture = false regardless of the accumulated duration while
bad_posture_duration retains its accumulated value, and is_bad_posture can
only be true after an update whose solve succeeded. -/
theorem failed_frame_bad_posture_flag :
    (∀ (t : ℚ) (p : PostureParams) (s : PostureState),
      (PostureMonitor.get_status (PostureMonitor.update none t p s)).is_bad_posture =
          false ∧
      (PostureMonitor.get_status (PostureMonitor.update none t p s)).bad_posture_duration =
          s.bad_posture_duration) ∧
    (∀ (solve : Option (ℚ × ℚ × ℚ)) (t : ℚ) (p : PostureParams) (s : PostureState),
      (PostureMonitor.update solve t p s).is_bad_posture = true →
        ∃ a, solve = some a) := by
  constructor
  · intro t p s
    exact ⟨rfl, rfl⟩
  · intro solve t p s h
    cases solve with
    | none =>
      exfalso
      have hf : (PostureMonitor.update none t p s).is_bad_posture = false := rfl
      rw [hf] at h
      exact Bool.false_ne_true h
    | some a => exact ⟨a, rfl⟩

/-- Concrete PostureMonitor configuration with the default thresholds and a
60-second warning duration. -/
def c10Params : PostureParams :=
  { pitch_threshold_down := 12, pitch_threshold_up := -8, warning_duration := 60 }

/-- Concrete PostureMonitor state with a bad-posture episode started at
time 0. -/
def c10State : PostureState :=
  { initPostureState with bad_posture_start := some 0 }

/-- Witness for C10: a successful Head-Down frame at t=60 after an episode
started at 0 raises the flag, and such a flag implies the solve succeeded. -/
theorem failed_frame_bad_posture_flag_witness :
    (PostureMonitor.update (some (20, 0, 0)) 60 c10Params c10State).is_bad_posture = true ∧
    (∃ a : ℚ × ℚ × ℚ, (some ((20:ℚ), (0:ℚ), (0:ℚ))) = some a) := by
  have hbad : (PostureMonitor.update (some (20, 0, 0)) 60 c10Params
      c10State).is_bad_posture = true := by
    norm_num [PostureMonitor.update, c10Params, c10State, initPostureState]
  exact ⟨hbad,
    failed_frame_bad_posture_flag.2 (some (20, 0, 0)) 60 c10Params c10State hbad⟩
